import Mathlib

/-!
Verification of the sensor-panel core of the `pihacks` repository:
a shallow embedding of `sensor_panel.py` (functions `sense_fifo`, `update`,
`main`) and the relevant classes of `ultrametrics_rpi.py` (`Notifier`,
`StatusLeds.light_threshold`, `Sensor.__init__`), with theorems about the
trace buffer, the threshold classifier, the alarm state machine, the
per-tick update logic and the panel loop.

Number values are modelled as rationals (Python floats/ints in exact
arithmetic); readings that can be `None` are `Option ℚ`; a raising read
is `none` at the reading level; a raising notification send is an
explicit escape flag.
-/

/-- A delivered notification: either an alarm message or a cleared message,
as sent by `Notifier.test_threshold` via `client().send_message`. -/
inductive Event where
  | alarm : Event
  | cleared : Event
deriving DecidableEq, Repr

/-- The mutable state of `ultrametrics_rpi.Notifier`: the `triggered` flag,
the three absolute thresholds `t1`, `t2`, `t3` computed in `__init__` as
`sensor.thresholds[i] * sensor.baseline[px]`, and the `notify` flag.
(The buzzer carries no modelled state: `start`/`stop` are external calls.) -/
structure NState where
  triggered : Bool
  t1 : ℚ
  t2 : ℚ
  t3 : ℚ
  notify : Bool
deriving DecidableEq, Repr

/-- Method `Notifier.test_threshold(v)` from `ultrametrics_rpi.py`, with the sends
recorded as events.  The `if/elif` chain handles the alarm zone
(`v >= t3`: send alarm and set `triggered` when `notify` and not yet
triggered), then the unconditional clearing check (`v < t2` with `notify`
and `triggered`: send cleared and reset `triggered`). -/
def test_threshold (s : NState) (v : ℚ) : NState × List Event :=
  let p :=
    if v < s.t1 then (s, ([] : List Event))
    else if v ≥ s.t1 ∧ v < s.t2 then (s, [])
    else if v ≥ s.t2 ∧ v < s.t3 then (s, [])
    else if v ≥ s.t3 then
      if s.notify ∧ s.triggered = false then
        ({ s with triggered := true }, [Event.alarm])
      else (s, [])
    else (s, [])
  if v < p.1.t2 ∧ p.1.notify ∧ p.1.triggered = true then
    ({ p.1 with triggered := false }, p.2 ++ [Event.cleared])
  else p

/-- Feed a list of values through `test_threshold` in order, starting from
state `s`, collecting all delivered notifications. -/
def runNotifier (s : NState) (vs : List ℚ) : NState × List Event :=
  vs.foldl (fun acc v =>
    let r := test_threshold acc.1 v
    (r.1, acc.2 ++ r.2)) (s, [])

/-- Constructor `Notifier.__init__`: `triggered` starts `False`; the three thresholds
are `thresholds[i] * baseline[px]`. -/
def Notifier_init (thresholds : List ℚ) (baseline : List ℚ) (px : Nat)
    (notify : Bool) : NState :=
  { triggered := false
    t1 := thresholds.getD 0 0 * baseline.getD px 0
    t2 := thresholds.getD 1 0 * baseline.getD px 0
    t3 := thresholds.getD 2 0 * baseline.getD px 0
    notify := notify }

/-- C1: with absolute thresholds t1 = 5, t2 = 7, t3 = 10 and `triggered`
initially false, the sequence [3, 11, 12, 11, 9, 11] delivers exactly one
alarm (fired at the value 11 at index 1: it is absent after the prefix [3]
and present after [3, 11]) and no cleared notification; continuing with
[11, 6, 11] delivers exactly one cleared notification (at the 6) and then
exactly one further alarm (at the following 11). -/
theorem notifier_single_alarm_and_clear :
    (runNotifier ⟨false, 5, 7, 10, true⟩ [3]).2 = [] ∧
    (runNotifier ⟨false, 5, 7, 10, true⟩ [3, 11]).2 = [Event.alarm] ∧
    (runNotifier ⟨false, 5, 7, 10, true⟩ [3, 11, 12, 11, 9, 11]).2
      = [Event.alarm] ∧
    (runNotifier ⟨false, 5, 7, 10, true⟩ [3, 11, 12, 11, 9, 11, 11]).2
      = [Event.alarm] ∧
    (runNotifier ⟨false, 5, 7, 10, true⟩ [3, 11, 12, 11, 9, 11, 11, 6]).2
      = [Event.alarm, Event.cleared] ∧
    (runNotifier ⟨false, 5, 7, 10, true⟩ [3, 11, 12, 11, 9, 11, 11, 6, 11]).2
      = [Event.alarm, Event.cleared, Event.alarm] := by
  decide

/-- A single `test_threshold` call on a notifier whose `notify` flag is
false delivers nothing and leaves the state unchanged. -/
theorem test_threshold_no_notify (trig : Bool) (t1 t2 t3 : ℚ) (v : ℚ) :
    test_threshold ⟨trig, t1, t2, t3, false⟩ v = (⟨trig, t1, t2, t3, false⟩, []) := by
  unfold test_threshold
  split_ifs <;> simp_all

/-- C10: a Notifier constructed with the notify flag false (so `triggered`
starts false, per `__init__`) delivers no notification of either kind on
any sequence of `test_threshold` calls, and `triggered` stays false for
its whole lifetime. -/
theorem notifier_no_notify_inert (thresholds baseline : List ℚ) (px : Nat)
    (vs : List ℚ) :
    (runNotifier (Notifier_init thresholds baseline px false) vs).2 = [] ∧
    (runNotifier (Notifier_init thresholds baseline px false) vs).1.triggered
      = false := by
  have key : ∀ (s : NState) (l : List Event), s.notify = false →
      (vs.foldl (fun acc v =>
        let r := test_threshold acc.1 v
        (r.1, acc.2 ++ r.2)) (s, l)) = (s, l) := by
    induction vs with
    | nil => intro s l _; rfl
    | cons v vs ih =>
        intro s l hs
        have hstep : test_threshold s v = (s, []) := by
          obtain ⟨trig, t1, t2, t3, ntf⟩ := s
          simp only at hs
          subst hs
          exact test_threshold_no_notify trig t1 t2 t3 v
        simp only [List.foldl_cons, hstep]
        simpa using ih s l hs
  constructor
  · exact congrArg Prod.snd (key _ [] rfl)
  · rw [show (runNotifier (Notifier_init thresholds baseline px false) vs).1
        = (Notifier_init thresholds baseline px false) from
        congrArg Prod.fst (key _ [] rfl)]
    rfl

/-- Result of one `test_threshold` call when `client().send_message` may
raise: the notifier object's state after the call, the notifications that
were actually delivered, and whether an exception escaped the method
(there is no try/except inside `test_threshold`). -/
structure NResultE where
  state : NState
  events : List Event
  escaped : Bool
deriving DecidableEq, Repr

/-- The `if/elif` chain of `test_threshold` (buzzer zones and the alarm
send above `t3`) with a fallible send: `sendOk = false` means
`client().send_message` raises, which aborts the method at that statement
(so `self.triggered = True` is not executed) and escapes. -/
def alarm_phase (sendOk : Bool) (s : NState) (v : ℚ) : NResultE :=
  if v < s.t1 then ⟨s, [], false⟩
  else if v ≥ s.t1 ∧ v < s.t2 then ⟨s, [], false⟩
  else if v ≥ s.t2 ∧ v < s.t3 then ⟨s, [], false⟩
  else if v ≥ s.t3 then
    if s.notify ∧ s.triggered = false then
      if sendOk then ⟨{ s with triggered := true }, [Event.alarm], false⟩
      else ⟨s, [], true⟩
    else ⟨s, [], false⟩
  else ⟨s, [], false⟩

/-- The final clearing block of `test_threshold` (`v < t2` while
triggered) with a fallible send; it is not reached when the alarm phase
already raised. -/
def clear_phase (sendOk : Bool) (v : ℚ) (p : NResultE) : NResultE :=
  if p.escaped then p
  else if v < p.state.t2 ∧ p.state.notify ∧ p.state.triggered = true then
    if sendOk then
      ⟨{ p.state with triggered := false }, p.events ++ [Event.cleared], false⟩
    else ⟨p.state, p.events, true⟩
  else p

/-- Method `Notifier.test_threshold(v)` with a fallible send: the elif chain
followed by the clearing check. -/
def test_threshold_exc (sendOk : Bool) (s : NState) (v : ℚ) : NResultE :=
  clear_phase sendOk v (alarm_phase sendOk s v)

/-- When the send succeeds, the fallible model agrees with `test_threshold`. -/
theorem test_threshold_exc_ok (s : NState) (v : ℚ) :
    (test_threshold_exc true s v).state = (test_threshold s v).1 ∧
    (test_threshold_exc true s v).events = (test_threshold s v).2 := by
  unfold test_threshold_exc clear_phase alarm_phase test_threshold
  split_ifs <;> simp_all
  all_goals (split_ifs <;> first | linarith | simp_all)

/-- Whether the alarm phase reaches the `send_message` call: the chain
falls through to the `v >= t3` branch (the value is at or above all
three thresholds), notifications are on and the alarm is not yet
triggered. -/
def alarm_attempted (s : NState) (v : ℚ) : Bool :=
  s.notify && (!s.triggered &&
    (decide (s.t1 ≤ v) && decide (s.t2 ≤ v) && decide (s.t3 ≤ v)))

/-- Whether `test_threshold` reaches a `send_message` call at all: an
alarm send, or a cleared send (`v < t2`, notify enabled, triggered). -/
def send_attempted (s : NState) (v : ℚ) : Bool :=
  alarm_attempted s v || (s.notify && (s.triggered && decide (v < s.t2)))

theorem alarm_phase_fail (s : NState) (v : ℚ) :
    alarm_phase false s v = ⟨s, [], alarm_attempted s v⟩ := by
  unfold alarm_phase alarm_attempted
  split_ifs <;> simp_all

/-- C3 counterexample: thresholds 5/7/10, `triggered = false`, notify
enabled, value 11 with a failing send: the exception escapes
`test_threshold` to its caller and `triggered` is NOT updated (it stays
false although an alarm delivery was attempted), contradicting the claim
that the failure is handled locally and the state machine proceeds as if
delivery succeeded. -/
theorem send_failure_escapes_counterexample :
    (test_threshold_exc false ⟨false, 5, 7, 10, true⟩ 11).escaped = true ∧
    (test_threshold_exc false ⟨false, 5, 7, 10, true⟩ 11).state.triggered
      = false := by
  decide

set_option maxHeartbeats 1000000 in
/-- C3 amended: with a failing send, for every state and value,
`test_threshold` delivers nothing, leaves the whole notifier state
(including `triggered`) unchanged, and lets the exception escape exactly
when a send was attempted (an alarm attempt: notify on, not yet
triggered, value at or above all three thresholds; or a clearing
attempt: notify on, triggered, value below `t2`). -/
theorem send_failure_propagates (s : NState) (v : ℚ) :
    (test_threshold_exc false s v).state = s ∧
    (test_threshold_exc false s v).events = [] ∧
    (test_threshold_exc false s v).escaped = send_attempted s v := by
  obtain ⟨trig, t1, t2, t3, ntf⟩ := s
  rw [test_threshold_exc, alarm_phase_fail]
  unfold clear_phase send_attempted alarm_attempted
  cases trig <;> cases ntf <;> simp <;> split_ifs <;> simp_all

/-- Function `sense_fifo(w, v, l)` from `sensor_panel.py`: if the value is not
`None`, pop the head when `len(l) > w`, then append; otherwise return the
list unchanged. -/
def sense_fifo (w : Nat) (v : Option ℚ) (l : List ℚ) : List ℚ :=
  match v with
  | none => l
  | some x => (if w < l.length then l.tail else l) ++ [x]

/-- Push a whole list of (non-`None`) readings through `sense_fifo`. -/
def fifoFold (w : Nat) (init : List ℚ) (vs : List ℚ) : List ℚ :=
  vs.foldl (fun acc v => sense_fifo w (some v) acc) init

/-- The suffix of the last `k` elements of a list. -/
def lastN (k : Nat) (l : List ℚ) : List ℚ :=
  l.drop (l.length - k)

theorem lastN_cons (k : Nat) (y : ℚ) (l : List ℚ) (h : k ≤ l.length) :
    lastN k (y :: l) = lastN k l := by
  unfold lastN
  have : (y :: l).length - k = (l.length - k) + 1 := by
    simp only [List.length_cons]; omega
  rw [this, List.drop_succ_cons]

theorem lastN_of_le (k : Nat) (l : List ℚ) (h : l.length ≤ k) :
    lastN k l = l := by
  unfold lastN
  rw [Nat.sub_eq_zero_of_le h, List.drop_zero]

/-- Pushing a sequence through the fifo starting from any list of length
at most `w + 1` yields the last `w + 1` elements of the concatenation. -/
theorem fifoFold_eq_lastN (w : Nat) :
    ∀ (vs l : List ℚ), l.length ≤ w + 1 →
      fifoFold w l vs = lastN (w + 1) (l ++ vs) := by
  intro vs
  induction vs with
  | nil =>
      intro l hl
      simp only [fifoFold, List.foldl_nil, List.append_nil]
      exact (lastN_of_le _ _ hl).symm
  | cons v vs ih =>
      intro l hl
      have step : fifoFold w l (v :: vs) = fifoFold w (sense_fifo w (some v) l) vs := rfl
      rw [step]
      by_cases hw : w < l.length
      · have hlen : l.length = w + 1 := by omega
        have hne : l ≠ [] := by
          intro h0; rw [h0] at hlen; simp at hlen
        obtain ⟨y, t, rfl⟩ := List.exists_cons_of_ne_nil hne
        have hfifo : sense_fifo w (some v) (y :: t) = t ++ [v] := by
          simp only [sense_fifo]
          rw [if_pos hw]
          rfl
        rw [hfifo]
        have htlen : (t ++ [v]).length ≤ w + 1 := by
          simp only [List.length_append, List.length_singleton]
          simp only [List.length_cons] at hlen
          omega
        rw [ih (t ++ [v]) htlen]
        have hrewrite : (t ++ [v]) ++ vs = t ++ (v :: vs) := by simp
        rw [hrewrite]
        have hcons : (y :: t) ++ (v :: vs) = y :: (t ++ (v :: vs)) := rfl
        rw [hcons, lastN_cons]
        simp only [List.length_append, List.length_cons]
        simp only [List.length_cons] at hlen
        omega
      · have hfifo : sense_fifo w (some v) l = l ++ [v] := by
          simp only [sense_fifo]
          rw [if_neg hw]
        rw [hfifo]
        have hlen2 : (l ++ [v]).length ≤ w + 1 := by
          simp only [List.length_append, List.length_singleton]
          omega
        rw [ih (l ++ [v]) hlen2]
        have : (l ++ [v]) ++ vs = l ++ (v :: vs) := by simp
        rw [this]

theorem fifoFold_nil_eq_lastN (w : Nat) (vs : List ℚ) :
    fifoFold w [] vs = lastN (w + 1) vs := by
  have := fifoFold_eq_lastN w vs [] (by simp)
  simpa using this

/-- C2 counterexample: with width 1, pushing the two values 1 and 2 into
an initially empty buffer leaves a buffer of length 2 — the length
exceeds the width, and the contents are the last 2 (not the last 1)
pushed values. -/
theorem fifo_width_exceeded_counterexample :
    fifoFold 1 [] [1, 2] = [1, 2] ∧
    ¬ (fifoFold 1 [] [1, 2]).length ≤ 1 := by
  decide

/-- C2 amended: starting empty, after any sequence of pushes of
non-`None` values the buffer length never exceeds `w + 1`, and the buffer
contents equal the last `w + 1` pushed values in insertion order
(the pop in `sense_fifo` fires only once `len(l) > w`, so the steady-state
occupancy is `w + 1`, one more than the claimed bound `w`). -/
theorem fifo_bound_and_content (w : Nat) (vs : List ℚ) :
    (fifoFold w [] vs).length ≤ w + 1 ∧
    fifoFold w [] vs = lastN (w + 1) vs := by
  refine ⟨?_, fifoFold_nil_eq_lastN w vs⟩
  rw [fifoFold_nil_eq_lastN w vs]
  unfold lastN
  simp only [List.length_drop]
  omega

/-- C9: pushing `None` is the identity on the buffer — nothing is
appended and nothing is evicted, for every width and every buffer. -/
theorem sense_fifo_none_identity (w : Nat) (l : List ℚ) :
    sense_fifo w none l = l := rfl

/-- The severity band indicated by the status LEDs: green, yellow or red. -/
inductive Band where
  | normal : Band
  | warning : Band
  | critical : Band
deriving DecidableEq, Repr

/-- Order on bands: Normal < Warning < Critical. -/
def Band.toNat : Band → Nat
  | Band.normal => 0
  | Band.warning => 1
  | Band.critical => 2

/-- Method `StatusLeds.light_threshold(v, t1, t2)` from `ultrametrics_rpi.py`:
lights green when `v < t1`, yellow when `t1 <= v < t2`, red when
`v >= t2`.  Green/yellow/red are the Normal/Warning/Critical bands. -/
def light_threshold (v t1 t2 : ℚ) : Band :=
  if v < t1 then Band.normal
  else if v ≥ t1 ∧ v < t2 then Band.warning
  else Band.critical

/-- C6: with `t1 <= t2` the classifier assigns exactly one band, with
boundary values going to the higher band (`Normal` iff `v < t1`,
`Warning` iff `t1 <= v < t2`, `Critical` iff `v >= t2`); and with the
`cpu` sensor's absolute thresholds `t1 = 1.2 * 50 = 60`,
`t2 = 1.5 * 50 = 75` the reading sequence `[55, 65, 80, 65, 55]`
classifies to `[Normal, Warning, Critical, Warning, Normal]`. -/
theorem classifier_bands (v t1 t2 : ℚ) (h : t1 ≤ t2) :
    ((light_threshold v t1 t2 = Band.normal ↔ v < t1) ∧
     (light_threshold v t1 t2 = Band.warning ↔ t1 ≤ v ∧ v < t2) ∧
     (light_threshold v t1 t2 = Band.critical ↔ v ≥ t2)) ∧
    ([55, 65, 80, 65, 55].map
        (fun x => light_threshold x ((1.2 : ℚ) * 50) ((1.5 : ℚ) * 50))
      = [Band.normal, Band.warning, Band.critical, Band.warning,
         Band.normal]) := by
  constructor
  · unfold light_threshold
    split_ifs <;>
      simp_all <;>
      first
        | linarith
        | (constructor <;> intro <;> linarith)
  · norm_num [light_threshold]

/-- Witness for C6 at `v = 70`, `t1 = 60`, `t2 = 75`. -/
theorem classifier_bands_witness :
    (60 : ℚ) ≤ 75 ∧
    ((light_threshold 70 60 75 = Band.normal ↔ (70 : ℚ) < 60) ∧
     (light_threshold 70 60 75 = Band.warning ↔ (60 : ℚ) ≤ 70 ∧ (70 : ℚ) < 75) ∧
     (light_threshold 70 60 75 = Band.critical ↔ (70 : ℚ) ≥ 75)) ∧
    ([55, 65, 80, 65, 55].map
        (fun x => light_threshold x ((1.2 : ℚ) * 50) ((1.5 : ℚ) * 50))
      = [Band.normal, Band.warning, Band.critical, Band.warning,
         Band.normal]) :=
  ⟨by norm_num, classifier_bands 70 60 75 (by norm_num)⟩

/-- C8: the classifier is monotone — for `v1 < v2` and thresholds
`t1 <= t2`, the band of `v1` is at most the band of `v2` under the
ordering Normal < Warning < Critical. -/
theorem classifier_monotone (v1 v2 t1 t2 : ℚ) (hv : v1 < v2) (ht : t1 ≤ t2) :
    (light_threshold v1 t1 t2).toNat ≤ (light_threshold v2 t1 t2).toNat := by
  unfold light_threshold
  split_ifs <;> simp_all [Band.toNat] <;> linarith

/-- Witness for C8 at `v1 = 55`, `v2 = 80`, `t1 = 60`, `t2 = 75`. -/
theorem classifier_monotone_witness :
    (55 : ℚ) < 80 ∧ (60 : ℚ) ≤ 75 ∧
    (light_threshold 55 60 75).toNat ≤ (light_threshold 80 60 75).toNat :=
  ⟨by norm_num, by norm_num,
    classifier_monotone 55 80 60 75 (by norm_num) (by norm_num)⟩

/-- The per-sensor display/panel configuration flags read by `update`
from `sconfig`: `display`, `leds` and `trace`. -/
structure SConfig where
  display : Bool
  leds : Bool
  trace : Bool
deriving DecidableEq, Repr

/-- The fields of `ultrametrics_rpi.Sensor` used by `update`: the name,
the optional thresholds (multipliers) and the baseline values. -/
structure SensorRec where
  name : String
  thresholds : Option (List ℚ)
  baseline : List ℚ
deriving DecidableEq, Repr

/-- The observable outcome of one tick of `update` in `sensor_panel.py`:
the trace buffer afterwards, the notifier state afterwards, whether the
red (error) LED was lit, whether the exception from a read was logged,
which band (if any) was passed to `light_threshold`, whether
`test_threshold` was called, the notifications it delivered, and whether
an exception escaped the tick (only a notification send can do this;
read errors are caught inside `update`). -/
structure TickOut where
  trace : List ℚ
  nstate : Option NState
  redLit : Bool
  errLogged : Bool
  classified : Option Band
  notifierCalled : Bool
  events : List Event
  escaped : Bool
deriving DecidableEq, Repr

/-- One tick of `update` from `sensor_panel.py`.  `reading = none` models
the evaluation of `sconfig['funcs']` raising; `reading = some v` is the
returned value list, whose entries may individually be `None`.  The
try/except wraps the evaluation and the trace push; the display block
runs afterwards, and only inside it (for a fully non-`None` reading, a
present sensor and configured thresholds) are the status LEDs and the
notifier updated. -/
def update_tick (width : Nat) (sc : SConfig) (sensor : Option SensorRec)
    (px : Nat) (reading : Option (List (Option ℚ))) (l : List ℚ)
    (ns : Option NState) (sendOk : Bool) : TickOut :=
  match reading with
  | none =>
      { trace := l, nstate := ns, redLit := true, errLogged := true,
        classified := none, notifierCalled := false, events := [],
        escaped := false }
  | some v =>
      let vpx : Option ℚ := v.getD px none
      let l1 : List ℚ := if sc.trace then sense_fifo width vpx l else l
      if sc.display then
        if v.any Option.isNone then
          { trace := l1, nstate := ns, redLit := true, errLogged := false,
            classified := none, notifierCalled := false, events := [],
            escaped := false }
        else
          match sensor with
          | some srec =>
              match srec.thresholds with
              | some ths =>
                  let base := srec.baseline.getD px 0
                  let ts := ths.map (fun t => t * base)
                  let x := vpx.getD 0
                  let cls := if sc.leds then
                      some (light_threshold x (ts.getD 0 0) (ts.getD 1 0))
                    else none
                  match ns with
                  | some st =>
                      let r := test_threshold_exc sendOk st x
                      { trace := l1, nstate := some r.state, redLit := false,
                        errLogged := false, classified := cls,
                        notifierCalled := true, events := r.events,
                        escaped := r.escaped }
                  | none =>
                      { trace := l1, nstate := none, redLit := false,
                        errLogged := false, classified := cls,
                        notifierCalled := false, events := [],
                        escaped := false }
              | none =>
                  { trace := l1, nstate := ns, redLit := false,
                    errLogged := false, classified := none,
                    notifierCalled := false, events := [], escaped := false }
          | none =>
              { trace := l1, nstate := ns, redLit := false,
                errLogged := false, classified := none,
                notifierCalled := false, events := [], escaped := false }
      else
        { trace := l1, nstate := ns, redLit := false, errLogged := false,
          classified := none, notifierCalled := false, events := [],
          escaped := false }

/-- C4 counterexample: a sensor with thresholds configured, an existing
notifier and a clean reading, but with the display flag off: the tick
classifies nothing and never calls `test_threshold` — the leds/notifier
block of `update` is nested inside `if(sconfig['display'])`, so it is
not reached, contradicting "regardless of whether the sensor's display
flag is enabled". -/
theorem no_display_skips_notifier_counterexample :
    (update_tick 16 ⟨false, true, true⟩
        (some ⟨"cpu", some [1.2, 1.5, 2], [50, 1]⟩) 0
        (some [some 80]) [] (some ⟨false, 60, 75, 100, true⟩) true).classified
      = none ∧
    (update_tick 16 ⟨false, true, true⟩
        (some ⟨"cpu", some [1.2, 1.5, 2], [50, 1]⟩) 0
        (some [some 80]) [] (some ⟨false, 60, 75, 100, true⟩) true).notifierCalled
      = false := by
  constructor <;> rfl

/-- C4 amended: in a tick whose reading was produced without error and
contains no `None`, for a sensor with thresholds configured the severity
classification happens exactly when both the display flag and the leds
flag are set, and `test_threshold` is called exactly when the display
flag is set and a notifier exists for the sensor — not regardless of the
display flag. -/
theorem threshold_block_requires_display (width : Nat) (sc : SConfig)
    (srec : SensorRec) (px : Nat) (v : List (Option ℚ)) (l : List ℚ)
    (ns : Option NState) (sendOk : Bool) (ths : List ℚ)
    (hv : v.any Option.isNone = false) (hths : srec.thresholds = some ths) :
    (update_tick width sc (some srec) px (some v) l ns sendOk).notifierCalled
      = (sc.display && ns.isSome) ∧
    ((update_tick width sc (some srec) px (some v) l ns sendOk).classified.isSome
      = (sc.display && sc.leds)) := by
  unfold update_tick
  cases hd : sc.display <;> cases hl : sc.leds <;>
    simp only [hd, hl, hv, hths, Bool.false_and, Bool.true_and,
      if_true, if_false, Bool.false_eq_true, reduceIte] <;>
    cases ns <;> simp

/-- Witness for C4 amended: display on, leds on, clean reading
`[some 80]`, thresholds `[1.2, 1.5, 2]`, a notifier present. -/
theorem threshold_block_requires_display_witness :
    (List.any [some (80 : ℚ)] Option.isNone = false) ∧
    ((some [(1.2 : ℚ), 1.5, 2] : Option (List ℚ)) = some [1.2, 1.5, 2]) ∧
    ((update_tick 16 ⟨true, true, true⟩
        (some ⟨"cpu", some [1.2, 1.5, 2], [50, 1]⟩) 0
        (some [some 80]) [] (some ⟨false, 60, 75, 100, true⟩) true).notifierCalled
      = (true && (some ⟨false, 60, 75, 100, true⟩ : Option NState).isSome) ∧
    ((update_tick 16 ⟨true, true, true⟩
        (some ⟨"cpu", some [1.2, 1.5, 2], [50, 1]⟩) 0
        (some [some 80]) [] (some ⟨false, 60, 75, 100, true⟩) true).classified.isSome
      = (true && true))) :=
  ⟨rfl, rfl,
    threshold_block_requires_display 16 ⟨true, true, true⟩
      ⟨"cpu", some [1.2, 1.5, 2], [50, 1]⟩ 0 [some 80] []
      (some ⟨false, 60, 75, 100, true⟩) true [1.2, 1.5, 2] rfl rfl⟩

/-- One sensor of the panel, as `main` sees it: its config flags, its
`Sensor` record if any, its preferred index, and the fixed per-tick
outcome of evaluating its read functions (`none` models the functions
raising on every tick). -/
structure PSensor where
  sc : SConfig
  sensor : Option SensorRec
  px : Nat
  reading : Option (List (Option ℚ))
deriving DecidableEq, Repr

/-- One pass of the `while(True)` loop in `main` (with `repeat = 1`):
every configured sensor gets one `update` tick, each sensor keeping its
own trace buffer across passes. -/
def panelPass (width : Nat) (ps : List PSensor) (traces : List (List ℚ)) :
    List (List ℚ) :=
  (ps.zip traces).map (fun pt =>
    (update_tick width pt.1.sc pt.1.sensor pt.1.px pt.1.reading pt.2
      none true).trace)

/-- Run `n` passes of the panel loop, starting from empty trace buffers. -/
def panelRun (width : Nat) (ps : List PSensor) : Nat → List (List ℚ)
  | 0 => List.replicate ps.length []
  | n + 1 => panelPass width ps (panelRun width ps n)

/-- Sensor A of the error-isolation scenario: its read functions raise
on every tick. -/
def sensorFailing : PSensor :=
  ⟨⟨false, false, true⟩, none, 0, none⟩

/-- A healthy sensor that reads the constant value `x` on every tick. -/
def sensorConst (x : ℚ) : PSensor :=
  ⟨⟨false, false, true⟩, none, 0, some [some x]⟩

/-- C7: a sensor whose read functions always raise never stops the panel
loop.  First, in every tick with a raising read, `update` catches the
exception, lights the red LED, logs the error, leaves the trace and
notifier untouched, and completes without any exception escaping.
Second, in the three-sensor panel [A failing, B healthy, C healthy] with
trace width 2, after every number `n` of passes the loop has reached all
three sensors on every pass: A's buffer is still empty while B and C
have received one push per pass (their buffers hold the last `2 + 1` of
`n` pushed values). -/
theorem failing_sensor_never_stops_panel :
    (∀ (width : Nat) (sc : SConfig) (sensor : Option SensorRec) (px : Nat)
        (l : List ℚ) (ns : Option NState) (sendOk : Bool),
      update_tick width sc sensor px none l ns sendOk
        = ⟨l, ns, true, true, none, false, [], false⟩) ∧
    (∀ n : Nat,
      panelRun 2 [sensorFailing, sensorConst 42, sensorConst 7] n
        = [[], lastN 3 (List.replicate n 42), lastN 3 (List.replicate n 7)]) := by
  constructor
  · intro width sc sensor px l ns sendOk
    rfl
  · intro n
    induction n with
    | zero => simp [panelRun, lastN]
    | succ m ih =>
        have hstep : ∀ x : ℚ,
            sense_fifo 2 (some x) (lastN 3 (List.replicate m x))
              = lastN 3 (List.replicate (m + 1) x) := by
          intro x
          rw [← fifoFold_nil_eq_lastN, ← fifoFold_nil_eq_lastN]
          rw [List.replicate_succ']
          unfold fifoFold
          rw [List.foldl_append]
          rfl
        rw [panelRun, ih]
        simp only [panelPass, sensorFailing, sensorConst, List.zip_cons_cons,
          List.zip_nil_right, List.map_cons, List.map_nil]
        rw [show (update_tick 2 ⟨false, false, true⟩ none 0 none []
              none true).trace = [] from rfl]
        refine congrArg₂ _ rfl (congrArg₂ _ ?_ (congrArg₂ _ ?_ rfl))
        · rw [show (update_tick 2 ⟨false, false, true⟩ none 0
                (some [some 42]) (lastN 3 (List.replicate m 42))
                none true).trace
              = sense_fifo 2 (some 42) (lastN 3 (List.replicate m 42)) from rfl]
          exact hstep 42
        · rw [show (update_tick 2 ⟨false, false, true⟩ none 0
                (some [some 7]) (lastN 3 (List.replicate m 7))
                none true).trace
              = sense_fifo 2 (some 7) (lastN 3 (List.replicate m 7)) from rfl]
          exact hstep 7

/-- The JSON object for one sensor key in the sensor-info file, as read
by `Sensor.__init__`: each field is `none` when the key is absent. -/
structure SensorJson where
  name : Option String
  short : Option String
  long : Option String
  thresholds : Option (List ℚ)
  baseline : Option (List ℚ)
deriving DecidableEq, Repr

/-- The attributes `Sensor.__init__` sets on a successfully constructed
sensor. -/
structure SensorLoaded where
  name : String
  short : String
  description : String
  thresholds : Option (List ℚ)
  baseline : Option (List ℚ)
  baseline_r : Option ℚ
  baseline_v : Option ℚ
deriving DecidableEq, Repr

/-- Constructor `Sensor.__init__` from `ultrametrics_rpi.py` after the JSON document
is parsed: reads `name`, `short`, `long` (a missing key raises
`KeyError`, which `__main__` does not catch); if `thresholds` is
present, also reads `baseline` and its first two entries (`KeyError` /
`IndexError` on absence), otherwise leaves them all `None`.  No check of
any kind is made on the ordering of the thresholds list. -/
def Sensor_init (j : SensorJson) : Except String SensorLoaded :=
  match j.name with
  | none => Except.error "KeyError: name"
  | some nm =>
    match j.short with
    | none => Except.error "KeyError: short"
    | some sh =>
      match j.long with
      | none => Except.error "KeyError: long"
      | some lg =>
        match j.thresholds with
        | some ths =>
            match j.baseline with
            | none => Except.error "KeyError: baseline"
            | some base =>
                match base.get? 0, base.get? 1 with
                | some b0, some b1 =>
                    Except.ok ⟨nm, sh, lg, some ths, some base, some b0, some b1⟩
                | _, _ => Except.error "IndexError: baseline"
        | none => Except.ok ⟨nm, sh, lg, none, none, none, none⟩

/-- C5 counterexample: a descriptor whose thresholds list `[5, 3]` is
non-increasing loads successfully — `Sensor.__init__` returns a sensor
carrying exactly those thresholds instead of rejecting the descriptor,
and startup (which only exits on JSON parse errors) proceeds with it. -/
theorem nonincreasing_thresholds_accepted_counterexample :
    Sensor_init ⟨some "cpu", some "cpu", some "cpu load", some [5, 3],
        some [1, 1]⟩
      = Except.ok ⟨"cpu", "cpu", "cpu load", some [5, 3], some [1, 1],
          some 1, some 1⟩ ∧
    ¬ ((5 : ℚ) < 3) := by
  constructor
  · rfl
  · norm_num

/-- C5 amended: loading a descriptor is never rejected for the ordering
of its thresholds — whenever the string fields are present and the
baseline has at least two entries, `Sensor_init` succeeds for every
thresholds list, non-increasing ones included; only missing fields (and,
at the `__main__` level, JSON parse errors) are fatal. -/
theorem sensor_load_ignores_threshold_order (nm sh lg : String)
    (ths base : List ℚ) (b0 b1 : ℚ)
    (h0 : base.get? 0 = some b0) (h1 : base.get? 1 = some b1) :
    Sensor_init ⟨some nm, some sh, some lg, some ths, some base⟩
      = Except.ok ⟨nm, sh, lg, some ths, some base, some b0, some b1⟩ := by
  simp only [Sensor_init, h0, h1]

/-- Witness for C5 amended at the thresholds `[5, 3]`. -/
theorem sensor_load_ignores_threshold_order_witness :
    ([(1 : ℚ), 1].get? 0 = some 1) ∧
    Sensor_init ⟨some "cpu", some "cpu", some "cpu load", some [5, 3],
        some [1, 1]⟩
      = Except.ok ⟨"cpu", "cpu", "cpu load", some [5, 3], some [1, 1],
          some 1, some 1⟩ :=
  ⟨rfl, sensor_load_ignores_threshold_order "cpu" "cpu" "cpu load"
    [5, 3] [1, 1] 1 1 rfl rfl⟩
